import Mathlib

/-!
Verification of the token-based session-management subsystem of the
task-management web application (backend `src/utils/auth.ts`,
`src/controllers/authController.ts`, `src/middleware/auth.ts`,
`src/schemas/authSchemas.ts`; frontend `src/lib/api.ts`).

The clock is modelled as a single `Nat` timeline in seconds (the granularity
of JWT `iat`/`exp` claims).  HS256 signing is deterministic, so a signed JWT
string is fully determined by its payload fields and the signing secret;
token values are therefore represented by the payload/secret pair, with a
separate constructor for arbitrary non-JWT strings.
-/

namespace TaskAuth

/-- Token class tag placed in the JWT payload (the `type` field in
`generateAccessToken` / `generateRefreshToken`). -/
inductive TokenType where
  | access
  | refresh
deriving DecidableEq

/-- Default value of `JWT_ACCESS_SECRET` in `src/utils/auth.ts`. -/
def JWT_ACCESS_SECRET : String := "fallback-access-secret"

/-- Default value of `JWT_REFRESH_SECRET` in `src/utils/auth.ts`. -/
def JWT_REFRESH_SECRET : String := "fallback-refresh-secret"

/-- JWT payload as produced by `jwt.sign`: `{userId, type, iat, exp}`. -/
structure Payload where
  userId : String
  type : TokenType
  iat : Nat
  exp : Nat
deriving DecidableEq

/-- A token value (an opaque string on the wire).  `signed p secret` is the
JWT string obtained by signing payload `p` with `secret` (deterministic for
HS256, and injective: distinct payload/secret pairs give distinct strings,
and no signed JWT is the empty string).  `malformed s` is any other string. -/
inductive TokenValue where
  | signed (payload : Payload) (secret : String)
  | malformed (s : String)
deriving DecidableEq

/-- The zod `refreshTokenSchema` requires `refreshToken` to be a string of
length at least 1; the only token value that is the empty string is
`malformed ""`. -/
def TokenValue.isEmptyString : TokenValue → Bool
  | .malformed s => s.isEmpty
  | .signed _ _ => false

/-- Access-token lifetime: `expiresIn: '15m'` (in seconds). -/
def ACCESS_TTL : Nat := 900

/-- Refresh-token lifetime: `expiresIn: '7d'` (in seconds). -/
def REFRESH_TTL : Nat := 604800

/-- `generateAccessToken` from `src/utils/auth.ts`: sign
`{userId, type: 'access'}` with the access secret, expiring 15 minutes after
issuance. -/
def generateAccessToken (userId : String) (now : Nat) : TokenValue :=
  .signed ⟨userId, .access, now, now + ACCESS_TTL⟩ JWT_ACCESS_SECRET

/-- `generateRefreshToken` from `src/utils/auth.ts`: sign
`{userId, type: 'refresh'}` with the refresh secret, expiring 7 days after
issuance. -/
def generateRefreshToken (userId : String) (now : Nat) : TokenValue :=
  .signed ⟨userId, .refresh, now, now + REFRESH_TTL⟩ JWT_REFRESH_SECRET

/-- Failure modes of `jwt.verify`: structurally invalid input, signature
made with a different secret, or `clockTimestamp >= exp` (the library
treats a token as expired exactly at its `exp` instant; the default
`clockTolerance` is 0). -/
inductive JwtError where
  | malformed
  | badSignature
  | expired
deriving DecidableEq

/-- `jwt.verify(token, secret)` at clock time `now`. -/
def jwtVerify (t : TokenValue) (secret : String) (now : Nat) :
    Except JwtError Payload :=
  match t with
  | .malformed _ => .error .malformed
  | .signed p s =>
      if s ≠ secret then .error .badSignature
      else if p.exp ≤ now then .error .expired
      else .ok p

/-- Both wrappers in `src/utils/auth.ts` collapse every failure (including a
wrong `type` tag) into a single thrown error message. -/
inductive VerifyError where
  | invalidOrExpired
deriving DecidableEq

/-- `verifyAccessToken` from `src/utils/auth.ts`: `jwt.verify` against the
access secret, then reject when `decoded.type !== 'access'`; every failure
becomes the one error. -/
def verifyAccessToken (t : TokenValue) (now : Nat) :
    Except VerifyError Payload :=
  match jwtVerify t JWT_ACCESS_SECRET now with
  | .error _ => .error .invalidOrExpired
  | .ok d => if d.type ≠ .access then .error .invalidOrExpired else .ok d

/-- `verifyRefreshToken` from `src/utils/auth.ts`: `jwt.verify` against the
refresh secret, then reject when `decoded.type !== 'refresh'`. -/
def verifyRefreshToken (t : TokenValue) (now : Nat) :
    Except VerifyError Payload :=
  match jwtVerify t JWT_REFRESH_SECRET now with
  | .error _ => .error .invalidOrExpired
  | .ok d => if d.type ≠ .refresh then .error .invalidOrExpired else .ok d

/-- One row of the `RefreshToken` table (`token UNIQUE, userId, expiresAt`). -/
structure StoredToken where
  token : TokenValue
  userId : String
  expiresAt : Nat
deriving DecidableEq

/-- The refresh-token table, in insertion order.  The `token` column carries
a UNIQUE constraint, enforced by `storeRefreshToken` below. -/
abbrev Store := List StoredToken

/-- `prisma.refreshToken.findUnique({ where: { token } })`. -/
def findUniqueToken (s : Store) (t : TokenValue) : Option StoredToken :=
  s.find? (fun r => decide (r.token = t))

/-- Database errors surfaced by prisma that the handlers can encounter:
P2002 (unique-constraint violation on create) and P2025 (record to delete
does not exist). -/
inductive DbError where
  | duplicateKey
  | recordNotFound
deriving DecidableEq

/-- `storeRefreshToken` from `src/utils/auth.ts`: computes
`expiresAt = now + 7 days` and runs `prisma.refreshToken.create`, which
fails on a duplicate `token` value. -/
def storeRefreshToken (userId : String) (t : TokenValue) (now : Nat)
    (s : Store) : Except DbError Store :=
  if (findUniqueToken s t).isSome then .error .duplicateKey
  else .ok (s ++ [⟨t, userId, now + REFRESH_TTL⟩])

/-- `removeRefreshToken` from `src/utils/auth.ts`: runs
`prisma.refreshToken.delete({ where: { token } })`, which throws P2025 when
no row with that token value exists. -/
def removeRefreshToken (t : TokenValue) (s : Store) : Except DbError Store :=
  if (findUniqueToken s t).isSome then
    .ok (s.filter (fun r => !decide (r.token = t)))
  else .error .recordNotFound

/-- `isRefreshTokenValid` from `src/utils/auth.ts`: `findUnique`; absent row
gives `false`; a row with `expiresAt < now` is deleted (via
`removeRefreshToken`, which succeeds because the row is present) and gives
`false`; otherwise `true` with the store untouched.  Returns the boolean
together with the store after the side effect. -/
def isRefreshTokenValid (t : TokenValue) (now : Nat) (s : Store) :
    Bool × Store :=
  match findUniqueToken s t with
  | none => (false, s)
  | some r =>
      if r.expiresAt < now then
        (false, s.filter (fun x => !decide (x.token = t)))
      else (true, s)

/-- `cleanupExpiredTokens` from `src/utils/auth.ts`:
`prisma.refreshToken.deleteMany` of this user's rows with
`expiresAt < now` (`lt` filter). -/
def cleanupExpiredTokens (userId : String) (now : Nat) (s : Store) : Store :=
  s.filter (fun r => !decide (r.userId = userId ∧ r.expiresAt < now))

/-- Outcomes of the auth route handlers in
`src/controllers/authController.ts`, tagged the way the handlers tag their
JSON responses. -/
inductive ApiResult where
  | loginSuccess (userId : String) (accessToken refreshToken : TokenValue)
  | refreshSuccess (accessToken refreshToken : TokenValue)
  | logoutSuccess
  | validationError
  | invalidCredentials
  | invalidRefreshToken
  | internalServerError
deriving DecidableEq

/-- The parsed request body of `refresh`/`logout`: `none` models a body that
is missing the `refreshToken` field or holds a non-string there; otherwise
the token string.  `refreshTokenSchema` additionally rejects the empty
string (`min(1)`). -/
def refreshBodySchemaOk (body : Option TokenValue) : Bool :=
  match body with
  | none => false
  | some t => !t.isEmptyString

/-- The `refreshToken` handler from `src/controllers/authController.ts`:
parse the body against `refreshTokenSchema` (ZodError leads to 400), verify
the token format, consult the store, then rotate (remove the old row, store
a fresh refresh token) and answer with the new pair.  Prisma errors in the
rotation step are neither ZodErrors nor carry the message the catch matches
on, so they end as 500; mutations already performed persist (there is no
transaction). -/
def refreshHandler (body : Option TokenValue) (now : Nat) (s : Store) :
    ApiResult × Store :=
  match body with
  | none => (.validationError, s)
  | some t =>
      if t.isEmptyString then (.validationError, s)
      else
        match verifyRefreshToken t now with
        | .error _ => (.invalidRefreshToken, s)
        | .ok decoded =>
            match isRefreshTokenValid t now s with
            | (false, s1) => (.invalidRefreshToken, s1)
            | (true, s1) =>
                let newAccess := generateAccessToken decoded.userId now
                let newRefresh := generateRefreshToken decoded.userId now
                match removeRefreshToken t s1 with
                | .error _ => (.internalServerError, s1)
                | .ok s2 =>
                    match storeRefreshToken decoded.userId newRefresh now s2 with
                    | .error _ => (.internalServerError, s2)
                    | .ok s3 => (.refreshSuccess newAccess newRefresh, s3)

/-- The `logout` handler from `src/controllers/authController.ts`: a
ZodError from `refreshTokenSchema.parse` answers 400; any other error
(including P2025 from deleting an absent row) falls to the final catch,
which still answers success. -/
def logoutHandler (body : Option TokenValue) (s : Store) :
    ApiResult × Store :=
  match body with
  | none => (.validationError, s)
  | some t =>
      if t.isEmptyString then (.validationError, s)
      else
        match removeRefreshToken t s with
        | .ok s1 => (.logoutSuccess, s1)
        | .error _ => (.logoutSuccess, s)

/-- Environment of one `login` request: whether `loginSchema.parse`
succeeds, the outcome of the external `authenticateUser` collaborator
(`some userId` on a credential match), and whether the
`prisma.refreshToken.deleteMany` call inside `cleanupExpiredTokens` raises
(an external database failure). -/
structure LoginEnv where
  schemaOk : Bool
  authResult : Option String
  cleanupFails : Bool
deriving DecidableEq

/-- The `login` handler from `src/controllers/authController.ts`: parse,
authenticate, issue both tokens, `await storeRefreshToken`, then
`await cleanupExpiredTokens` — all inside the same try block, whose catch
maps a non-Zod error to 500.  A cleanup failure therefore surfaces as the
handler's own 500 response. -/
def loginHandler (env : LoginEnv) (now : Nat) (s : Store) :
    ApiResult × Store :=
  if !env.schemaOk then (.validationError, s)
  else
    match env.authResult with
    | none => (.invalidCredentials, s)
    | some userId =>
        let accessToken := generateAccessToken userId now
        let refreshToken := generateRefreshToken userId now
        match storeRefreshToken userId refreshToken now s with
        | .error _ => (.internalServerError, s)
        | .ok s1 =>
            if env.cleanupFails then (.internalServerError, s1)
            else (.loginSuccess userId accessToken refreshToken,
                  cleanupExpiredTokens userId now s1)

/-- Outcomes of the `authenticateToken` middleware in
`src/middleware/auth.ts`. -/
inductive AuthOutcome where
  | missingToken
  | invalidToken
  | userNotFound
  | authenticated (userId : String)
deriving DecidableEq

/-- The `authenticateToken` middleware: `none` models a request whose
Authorization header is absent or not of the `Bearer ...` shape; otherwise
the bearer token is verified and the user id it names is looked up in the
`user` table (`users` is the list of existing user ids), answering
USER_NOT_FOUND when the subject no longer exists. -/
def authenticateToken (header : Option TokenValue) (users : List String)
    (now : Nat) : AuthOutcome :=
  match header with
  | none => .missingToken
  | some tok =>
      match verifyAccessToken tok now with
      | .error _ => .invalidToken
      | .ok decoded =>
          if users.contains decoded.userId then .authenticated decoded.userId
          else .userNotFound

/-- A browser cookie as used by `src/lib/api.ts`: its value and the
absolute instant at which the `expires` attribute removes it. -/
structure Cookie where
  value : String
  expires : Nat
deriving DecidableEq

/-- The Client Session Agent's storage: the `accessToken` and
`refreshToken` cookies, each possibly absent. -/
structure TokenStorage where
  accessCookie : Option Cookie
  refreshCookie : Option Cookie
deriving DecidableEq

/-- `Cookies.set('accessToken', ..., { expires: 1/96 })`: 15 minutes, in
seconds. -/
def ACCESS_COOKIE_TTL : Nat := 900

/-- `Cookies.set('refreshToken', ..., { expires: 7 })`: 7 days, in
seconds. -/
def REFRESH_COOKIE_TTL : Nat := 604800

/-- `setTokens` from `src/lib/api.ts`: overwrite both cookies, the access
cookie expiring 15 minutes from now and the refresh cookie 7 days from
now. -/
def setTokens (a r : String) (now : Nat) : TokenStorage :=
  ⟨some ⟨a, now + ACCESS_COOKIE_TTL⟩, some ⟨r, now + REFRESH_COOKIE_TTL⟩⟩

/-- `clearTokens` from `src/lib/api.ts`: remove both cookies. -/
def clearTokens : TokenStorage := ⟨none, none⟩

/-- `Cookies.get` at clock time `now`: an expired cookie reads as absent. -/
def readCookie (c : Option Cookie) (now : Nat) : Option String :=
  match c with
  | none => none
  | some ck => if now < ck.expires then some ck.value else none

/-- `getAccessToken` from `src/lib/api.ts`. -/
def getAccessToken (st : TokenStorage) (now : Nat) : Option String :=
  readCookie st.accessCookie now

/-- `getRefreshToken` from `src/lib/api.ts`. -/
def getRefreshToken (st : TokenStorage) (now : Nat) : Option String :=
  readCookie st.refreshCookie now

/-- The axios request interceptor: attach `Authorization: Bearer <token>`
exactly when `getAccessToken` returns a token. -/
def requestAuthHeader (st : TokenStorage) (now : Nat) : Option String :=
  match getAccessToken st now with
  | some tok => some ("Bearer " ++ tok)
  | none => none

/-- The operations through which `APIClient` mutates its cookie storage:
`setTokens` (from register, login, refresh) at some instant, and
`clearTokens` (from logout and failed refresh). -/
inductive StorageOp where
  | set (a r : String) (t : Nat)
  | clear

/-- Apply one storage operation. -/
def applyOp (_st : TokenStorage) : StorageOp → TokenStorage
  | .set a r t => setTokens a r t
  | .clear => clearTokens

/-- Run a sequence of storage operations from a starting state. -/
def runOps (st : TokenStorage) (ops : List StorageOp) : TokenStorage :=
  ops.foldl applyOp st

/-- The storage state of a fresh browser session: no cookies. -/
def initialStorage : TokenStorage := ⟨none, none⟩

/-- Result of the shared refresh promise: the new access token on success,
or a failure (the caller then clears the pair and redirects to login). -/
inductive RefreshOutcome where
  | success (token : String)
  | failure
deriving DecidableEq

/-- Shared mutable state of the singleton `APIClient` relevant to
single-flight refresh: the `refreshPromise` field (identified by a promise
id when non-null), the number of `performTokenRefresh` network calls made
so far, and a supply of fresh promise ids. -/
structure AgentState where
  refreshPromise : Option Nat
  networkCalls : Nat
  nextId : Nat
deriving DecidableEq

/-- What one caller of `refreshAccessToken` holds after its synchronous
prefix ran: which promise it awaits, and whether it is the caller that
created the promise (and whose `finally` clears `refreshPromise`). -/
structure CallerRecord where
  promiseAwaited : Nat
  isOwner : Bool
deriving DecidableEq

/-- The synchronous prefix of `refreshAccessToken` from `src/lib/api.ts`.
JavaScript's event loop runs it atomically: there is no `await` between the
`if (this.refreshPromise)` check and the `this.refreshPromise =
this.performTokenRefresh()` assignment.  A caller that finds a pending
promise returns it and awaits it; otherwise it starts the one network call,
installs the promise, and awaits it as owner. -/
def enterRefresh (st : AgentState) : AgentState × CallerRecord :=
  match st.refreshPromise with
  | some p => (st, ⟨p, false⟩)
  | none =>
      (⟨some st.nextId, st.networkCalls + 1, st.nextId + 1⟩,
       ⟨st.nextId, true⟩)

/-- N callers whose requests all received a 401 run their `enterRefresh`
prefixes one after another (the event loop serialises them; no settlement
happens in between because the network call is still outstanding). -/
def enterAll (st : AgentState) : Nat → AgentState × List CallerRecord
  | 0 => (st, [])
  | n + 1 =>
      let step := enterRefresh st
      let rest := enterAll step.1 n
      (rest.1, step.2 :: rest.2)

/-- Settlement of promise `p` with outcome `o`: the owner's `finally` block
sets `refreshPromise` back to `null`.  The outcome value plays no role —
the clearing happens on the success and the failure path alike. -/
def settle (st : AgentState) (p : Nat) (_o : RefreshOutcome) : AgentState :=
  if st.refreshPromise = some p then ⟨none, st.networkCalls, st.nextId⟩
  else st

/-- A caller resumes with the value of the promise it awaited;
`results` maps each promise id to its settled outcome. -/
def resumeWith (results : Nat → RefreshOutcome) (c : CallerRecord) :
    RefreshOutcome :=
  results c.promiseAwaited

/-! Helper lemmas about the store. -/

/-- Deleting by token value leaves no row with that value behind. -/
theorem findUniqueToken_filter_self (s : Store) (t : TokenValue) :
    findUniqueToken (s.filter (fun r => !decide (r.token = t))) t = none := by
  unfold findUniqueToken
  rw [List.find?_eq_none]
  intro x hx
  have hmem := List.mem_filter.mp hx
  simpa using hmem.2

/-- A value absent from the store is absent from any filtered store. -/
theorem findUniqueToken_none_filter (s : Store) (t : TokenValue)
    (p : StoredToken → Bool) (h : findUniqueToken s t = none) :
    findUniqueToken (s.filter p) t = none := by
  unfold findUniqueToken at h ⊢
  rw [List.find?_eq_none] at h ⊢
  intro x hx
  exact h x (List.mem_filter.mp hx).1

/-- Lookup distributes over append. -/
theorem findUniqueToken_append (s₁ s₂ : Store) (t : TokenValue) :
    findUniqueToken (s₁ ++ s₂) t =
      (findUniqueToken s₁ t).or (findUniqueToken s₂ t) := by
  unfold findUniqueToken
  exact List.find?_append

/-- A lookup miss makes `isRefreshTokenValid` answer false without touching
the store. -/
theorem isRefreshTokenValid_of_none (t : TokenValue) (now : Nat) (s : Store)
    (h : findUniqueToken s t = none) :
    isRefreshTokenValid t now s = (false, s) := by
  unfold isRefreshTokenValid
  rw [h]

/-- A hit on an unexpired row makes `isRefreshTokenValid` answer true with
the store untouched. -/
theorem isRefreshTokenValid_of_live (t : TokenValue) (now : Nat) (s : Store)
    (r : StoredToken) (hr : findUniqueToken s t = some r)
    (hlive : ¬ r.expiresAt < now) :
    isRefreshTokenValid t now s = (true, s) := by
  unfold isRefreshTokenValid
  rw [hr]
  simp [hlive]

/-- A hit on an expired row makes `isRefreshTokenValid` delete the row and
answer false. -/
theorem isRefreshTokenValid_of_expired (t : TokenValue) (now : Nat)
    (s : Store) (r : StoredToken) (hr : findUniqueToken s t = some r)
    (hexp : r.expiresAt < now) :
    isRefreshTokenValid t now s =
      (false, s.filter (fun x => !decide (x.token = t))) := by
  unfold isRefreshTokenValid
  rw [hr]
  simp [hexp]

/-- Removing a present row succeeds and yields the filtered store. -/
theorem removeRefreshToken_of_some (t : TokenValue) (s : Store)
    (r : StoredToken) (hr : findUniqueToken s t = some r) :
    removeRefreshToken t s =
      .ok (s.filter (fun x => !decide (x.token = t))) := by
  unfold removeRefreshToken
  rw [hr]
  rfl

/-- Inserting a fresh value succeeds and appends the new row. -/
theorem storeRefreshToken_of_none (userId : String) (t : TokenValue)
    (now : Nat) (s : Store) (h : findUniqueToken s t = none) :
    storeRefreshToken userId t now s =
      .ok (s ++ [⟨t, userId, now + REFRESH_TTL⟩]) := by
  unfold storeRefreshToken
  rw [h]
  rfl

/-- A successful `verifyRefreshToken` pins down the shape of the token: it
is the payload signed with the refresh secret, tagged `refresh`, unexpired,
and (being a signed JWT) not the empty string. -/
theorem verifyRefreshToken_ok_inv (t : TokenValue) (now : Nat) (d : Payload)
    (h : verifyRefreshToken t now = .ok d) :
    t = .signed d JWT_REFRESH_SECRET ∧ d.type = .refresh ∧ now < d.exp ∧
      t.isEmptyString = false := by
  unfold verifyRefreshToken jwtVerify at h
  cases t with
  | malformed s => simp at h
  | signed p sec =>
      by_cases hsec : sec ≠ JWT_REFRESH_SECRET
      · simp [hsec] at h
      · rw [not_not] at hsec
        subst hsec
        by_cases hexp : p.exp ≤ now
        · simp [hexp] at h
        · by_cases hty : p.type ≠ TokenType.refresh
          · simp [hexp, hty] at h
          · rw [not_not] at hty
            simp [hexp, hty] at h
            subst h
            exact ⟨rfl, hty, by omega, rfl⟩

/-! Claim C4: remove-by-value on the refresh token store. -/

/-- C4, counterexample: the claim says deleting an absent row completes
successfully, but `removeRefreshToken` runs `prisma.refreshToken.delete`,
which raises P2025 when no row with that token value exists — here on the
empty store. -/
theorem claim_C4_counterexample :
    removeRefreshToken (.malformed "t") ([] : Store) =
      .error .recordNotFound := rfl

/-- C4 (amended): `remove(token)` deletes the row when one exists for that
token value (afterwards no row with that value remains), but calling it
when no row exists raises a record-not-found error rather than completing
successfully. -/
theorem claim_C4 (t : TokenValue) (s : Store) :
    (findUniqueToken s t = none →
      removeRefreshToken t s = .error .recordNotFound) ∧
    (∀ r, findUniqueToken s t = some r →
      removeRefreshToken t s =
        .ok (s.filter (fun x => !decide (x.token = t))) ∧
      findUniqueToken (s.filter (fun x => !decide (x.token = t))) t =
        none) := by
  constructor
  · intro h
    unfold removeRefreshToken
    rw [h]
    rfl
  · intro r hr
    exact ⟨removeRefreshToken_of_some t s r hr, findUniqueToken_filter_self s t⟩

/-- C4, witness: deleting a present row succeeds and empties the
one-row store. -/
theorem claim_C4_witness :
    removeRefreshToken (.malformed "a") [⟨.malformed "a", "u", 5⟩] =
      .ok ([] : Store) ∧
    findUniqueToken ([] : Store) (.malformed "a") = none := by
  have h := (claim_C4 (.malformed "a") [⟨.malformed "a", "u", 5⟩]).2
    ⟨.malformed "a", "u", 5⟩ rfl
  exact h

/-! Claim C5: the validity check on the refresh token store. -/

/-- C5, counterexample: the claim says a row whose `expiresAt` equals the
current instant is treated as expired (deleted, `false` returned), but the
code compares with strict `<`: at `expiresAt = now = 100` it answers `true`
and leaves the store unchanged. -/
theorem claim_C5_counterexample :
    isRefreshTokenValid (.malformed "t") 100 [⟨.malformed "t", "u", 100⟩] =
      (true, [⟨.malformed "t", "u", 100⟩]) := rfl

/-- C5 (amended): `isValid(token)` returns false when no row exists; when a
row exists with `expiresAt < now` (strictly) it deletes that row and
returns false; and when a row exists with `expiresAt ≥ now` it returns true
and leaves the store unchanged — a row whose `expiresAt` equals the current
instant is treated as still valid. -/
theorem claim_C5 (t : TokenValue) (now : Nat) (s : Store) :
    (findUniqueToken s t = none →
      isRefreshTokenValid t now s = (false, s)) ∧
    (∀ r, findUniqueToken s t = some r → r.expiresAt < now →
      isRefreshTokenValid t now s =
        (false, s.filter (fun x => !decide (x.token = t))) ∧
      findUniqueToken (isRefreshTokenValid t now s).2 t = none) ∧
    (∀ r, findUniqueToken s t = some r → now ≤ r.expiresAt →
      isRefreshTokenValid t now s = (true, s)) := by
  refine ⟨fun h => isRefreshTokenValid_of_none t now s h, ?_, ?_⟩
  · intro r hr hexp
    have heq := isRefreshTokenValid_of_expired t now s r hr hexp
    refine ⟨heq, ?_⟩
    rw [heq]
    exact findUniqueToken_filter_self s t
  · intro r hr hle
    exact isRefreshTokenValid_of_live t now s r hr (by omega)

/-- C5, witness: the three cases at concrete stores — a miss, an expired
row (deleted), and a row expiring exactly now (kept, reported valid). -/
theorem claim_C5_witness :
    isRefreshTokenValid (.malformed "t") 10 ([] : Store) = (false, []) ∧
    isRefreshTokenValid (.malformed "t") 10 [⟨.malformed "t", "u", 5⟩] =
      (false, []) ∧
    isRefreshTokenValid (.malformed "t") 10 [⟨.malformed "t", "u", 10⟩] =
      (true, [⟨.malformed "t", "u", 10⟩]) := by
  refine ⟨(claim_C5 (.malformed "t") 10 []).1 rfl, ?_, ?_⟩
  · exact ((claim_C5 (.malformed "t") 10 [⟨.malformed "t", "u", 5⟩]).2.1
      ⟨.malformed "t", "u", 5⟩ rfl (by decide)).1
  · exact (claim_C5 (.malformed "t") 10 [⟨.malformed "t", "u", 10⟩]).2.2
      ⟨.malformed "t", "u", 10⟩ rfl (by decide)

/-! Claim C8: class separation of access and refresh tokens. -/

/-- The two default signing secrets are distinct strings. -/
theorem secrets_distinct : JWT_ACCESS_SECRET ≠ JWT_REFRESH_SECRET := by
  decide

/-- C8 (confirmed): an access token never verifies as a refresh token and a
refresh token never verifies as an access token, for any subject id and any
issuance/check times — the signature check against the other class's secret
fails. -/
theorem claim_C8 (userId : String) (issuedAt checkedAt : Nat) :
    verifyRefreshToken (generateAccessToken userId issuedAt) checkedAt =
      .error .invalidOrExpired ∧
    verifyAccessToken (generateRefreshToken userId issuedAt) checkedAt =
      .error .invalidOrExpired := by
  constructor
  · unfold verifyRefreshToken jwtVerify generateAccessToken
    simp [secrets_distinct]
  · unfold verifyAccessToken jwtVerify generateRefreshToken
    simp [Ne.symm secrets_distinct]

/-! Claim C9: the 15-minute access-token expiry boundary. -/

/-- C9 (confirmed): an access token issued at `t0` verifies at every check
time strictly before `t0 + 15` minutes and fails verification at every
check time at or after that boundary; issuance and verification read the
same clock and no clock-skew tolerance is granted. -/
theorem claim_C9 (userId : String) (t0 t : Nat) :
    (t < t0 + ACCESS_TTL →
      verifyAccessToken (generateAccessToken userId t0) t =
        .ok ⟨userId, .access, t0, t0 + ACCESS_TTL⟩) ∧
    (t0 + ACCESS_TTL ≤ t →
      verifyAccessToken (generateAccessToken userId t0) t =
        .error .invalidOrExpired) := by
  constructor
  · intro h
    have hne : ¬ (t0 + ACCESS_TTL ≤ t) := by omega
    unfold verifyAccessToken jwtVerify generateAccessToken
    simp [hne]
  · intro h
    unfold verifyAccessToken jwtVerify generateAccessToken
    simp [h]

/-- C9, witness: at `t0 = 0` the token is accepted at second 899 and
rejected at second 900 (= 15 minutes). -/
theorem claim_C9_witness :
    verifyAccessToken (generateAccessToken "u" 0) 899 =
      .ok ⟨"u", .access, 0, 900⟩ ∧
    verifyAccessToken (generateAccessToken "u" 0) 900 =
      .error .invalidOrExpired :=
  ⟨(claim_C9 "u" 0 899).1 (by decide), (claim_C9 "u" 0 900).2 (by decide)⟩

/-! Claim C10: the middleware consults the user table. -/

/-- C10 (confirmed): `authenticateToken` is not a pure codec check — for
every structurally valid, unexpired access token whose subject id is not in
the user table, the middleware rejects the request with the distinct
USER_NOT_FOUND unauthorized outcome. -/
theorem claim_C10 (tok : TokenValue) (users : List String) (now : Nat)
    (d : Payload) (hver : verifyAccessToken tok now = .ok d)
    (habsent : users.contains d.userId = false) :
    authenticateToken (some tok) users now = .userNotFound := by
  simp [authenticateToken, hver, habsent]
  simpa using habsent

/-- C10, witness: a fresh, valid access token for the deleted subject
"ghost" is rejected with USER_NOT_FOUND against an empty user table. -/
theorem claim_C10_witness :
    authenticateToken (some (generateAccessToken "ghost" 0)) [] 1 =
      .userNotFound :=
  claim_C10 (generateAccessToken "ghost" 0) [] 1
    ⟨"ghost", .access, 0, 900⟩ rfl rfl

/-! Claim C7: no access token without a refresh token. -/

/-- One storage operation preserves the pair invariant: whenever the
refresh cookie reads as absent, the access cookie reads as absent too
(`setTokens` gives the access cookie the strictly shorter lifetime;
`clearTokens` drops both). -/
theorem applyOp_pair_invariant (st : TokenStorage) (op : StorageOp)
    (now : Nat) (h : getRefreshToken (applyOp st op) now = none) :
    getAccessToken (applyOp st op) now = none := by
  cases op with
  | clear => rfl
  | set a r t =>
      simp only [applyOp, setTokens, getAccessToken, getRefreshToken,
        readCookie, ACCESS_COOKIE_TTL, REFRESH_COOKIE_TTL] at h ⊢
      split at h
      · simp at h
      · rename_i hge
        rw [if_neg (by omega)]

/-- The pair invariant holds in every storage state the agent can reach. -/
theorem runOps_pair_invariant (ops : List StorageOp) :
    ∀ st : TokenStorage,
      (∀ n, getRefreshToken st n = none → getAccessToken st n = none) →
      ∀ now, getRefreshToken (runOps st ops) now = none →
        getAccessToken (runOps st ops) now = none := by
  induction ops with
  | nil => exact fun st hst now h => hst now h
  | cons op rest ih =>
      intro st hst now h
      exact ih (applyOp st op)
        (fun n hn => applyOp_pair_invariant st op n hn) now h

/-- C7 (confirmed): in every storage state the Client Session Agent can
reach from a fresh session by its own operations (`setTokens`,
`clearTokens`), if the refresh token reads as absent then the access token
reads as absent as well, so the request interceptor attaches no
Authorization header. -/
theorem claim_C7 (ops : List StorageOp) (now : Nat)
    (h : getRefreshToken (runOps initialStorage ops) now = none) :
    requestAuthHeader (runOps initialStorage ops) now = none := by
  have hacc := runOps_pair_invariant ops initialStorage
    (fun _ _ => rfl) now h
  unfold requestAuthHeader
  rw [hacc]

/-- C7, witness: after a login at time 0, at the instant the refresh cookie
lapses (7 days) the access cookie has long lapsed too and no header is
attached. -/
theorem claim_C7_witness :
    getRefreshToken (runOps initialStorage [.set "a" "r" 0]) 604800 =
      none ∧
    requestAuthHeader (runOps initialStorage [.set "a" "r" 0]) 604800 =
      none :=
  ⟨rfl, claim_C7 [.set "a" "r" 0] 604800 rfl⟩

/-! Claim C3: logout for arbitrary inputs. -/

/-- After a logout with a schema-passing body, no row with that token value
remains in the store. -/
theorem logoutHandler_find_none (t : TokenValue) (s : Store)
    (h : t.isEmptyString = false) :
    findUniqueToken (logoutHandler (some t) s).2 t = none := by
  by_cases hf : (findUniqueToken s t).isSome
  · obtain ⟨r, hr⟩ := Option.isSome_iff_exists.mp hf
    simp [logoutHandler, h, removeRefreshToken_of_some t s r hr,
      findUniqueToken_filter_self s t]
  · have hn : findUniqueToken s t = none :=
      Option.not_isSome_iff_eq_none.mp hf
    have hrem : removeRefreshToken t s = .error .recordNotFound := by
      unfold removeRefreshToken
      rw [hn]
      rfl
    simp [logoutHandler, h, hrem, hn]

/-- C3, counterexample: the claim says logout returns success even for an
input failing schema validation entirely, but on the empty-string token
(rejected by `refreshTokenSchema`'s `min(1)`) the handler answers 400
VALIDATION_ERROR, not success. -/
theorem claim_C3_counterexample :
    logoutHandler (some (.malformed "")) ([] : Store) =
      (.validationError, []) := rfl

/-- C3 (amended): for every input value T that passes schema validation (a
nonempty token string) — valid, expired, malformed, or already consumed —
`logout(T)` returns a success response, and after `logout(T)` a subsequent
`refresh(T)` fails with InvalidRefresh; an input failing schema validation
instead receives a 400 validation error. -/
theorem claim_C3 (t : TokenValue) (s : Store) (now : Nat)
    (h : t.isEmptyString = false) :
    (logoutHandler (some t) s).1 = .logoutSuccess ∧
    (refreshHandler (some t) now (logoutHandler (some t) s).2).1 =
      .invalidRefreshToken := by
  constructor
  · cases hrem : removeRefreshToken t s with
    | ok s1 => simp [logoutHandler, h, hrem]
    | error e => simp [logoutHandler, h, hrem]
  · have hnone := logoutHandler_find_none t s h
    cases hver : verifyRefreshToken t now with
    | error e => simp [refreshHandler, h, hver]
    | ok d =>
        simp [refreshHandler, h, hver,
          isRefreshTokenValid_of_none t now _ hnone]

/-- C3, witness: a token string the server never issued is logged out with
a success response, and refreshing it afterwards fails with
InvalidRefresh. -/
theorem claim_C3_witness :
    (logoutHandler (some (.malformed "x")) ([] : Store)).1 =
      .logoutSuccess ∧
    (refreshHandler (some (.malformed "x")) 0
        (logoutHandler (some (.malformed "x")) ([] : Store)).2).1 =
      .invalidRefreshToken :=
  claim_C3 (.malformed "x") [] 0 rfl

/-! Claim C6: housekeeping failure during login. -/

/-- C6, counterexample: the claim says a failing housekeeping call never
becomes the operation's result, but when `cleanupExpiredTokens` raises
during an otherwise successful login the handler's catch answers 500 — the
success payload is not returned. -/
theorem claim_C6_counterexample :
    (loginHandler ⟨true, some "u", true⟩ 0 ([] : Store)).1 =
      .internalServerError := rfl

/-- C6 (amended): the expired-token housekeeping call in login is awaited
inside the handler's try block, so it is not fire-and-forget: when it fails
the login returns a 500 internal error instead of its success payload, and
when it succeeds the success payload is returned (refresh makes no
housekeeping call at all). -/
theorem claim_C6 (env : LoginEnv) (now : Nat) (s : Store) (userId : String)
    (hschema : env.schemaOk = true)
    (hauth : env.authResult = some userId)
    (hfresh : findUniqueToken s (generateRefreshToken userId now) = none) :
    (env.cleanupFails = true →
      (loginHandler env now s).1 = .internalServerError) ∧
    (env.cleanupFails = false →
      (loginHandler env now s).1 =
        .loginSuccess userId (generateAccessToken userId now)
          (generateRefreshToken userId now)) := by
  have hstore := storeRefreshToken_of_none userId
    (generateRefreshToken userId now) now s hfresh
  constructor
  · intro hfail
    simp [loginHandler, hschema, hauth, hstore, hfail]
  · intro hok
    simp [loginHandler, hschema, hauth, hstore, hok]

/-- C6, witness: with a working database the login succeeds; with the
housekeeping call failing it answers 500. -/
theorem claim_C6_witness :
    (loginHandler ⟨true, some "u", false⟩ 5 ([] : Store)).1 =
      .loginSuccess "u" (generateAccessToken "u" 5)
        (generateRefreshToken "u" 5) :=
  (claim_C6 ⟨true, some "u", false⟩ 5 [] "u" rfl rfl rfl).2 rfl

/-! Claim C2: client-side single-flight refresh. -/

/-- A caller that finds a refresh already pending joins it without touching
the shared state. -/
theorem enterRefresh_inflight (st : AgentState) (p : Nat)
    (h : st.refreshPromise = some p) :
    enterRefresh st = (st, ⟨p, false⟩) := by
  simp [enterRefresh, h]

/-- A caller that finds no refresh pending starts the one network call and
installs the promise. -/
theorem enterRefresh_idle (st : AgentState)
    (h : st.refreshPromise = none) :
    enterRefresh st =
      (⟨some st.nextId, st.networkCalls + 1, st.nextId + 1⟩,
       ⟨st.nextId, true⟩) := by
  simp [enterRefresh, h]

/-- Any number of callers arriving while a refresh is pending leave the
state unchanged and all join the same promise as non-owners. -/
theorem enterAll_inflight (st : AgentState) (p : Nat)
    (h : st.refreshPromise = some p) :
    ∀ n, enterAll st n = (st, List.replicate n ⟨p, false⟩) := by
  intro n
  induction n with
  | zero => rfl
  | succ m ih =>
      simp [enterAll, enterRefresh_inflight st p h, ih,
        List.replicate_succ]

/-- Non-owner records contribute nothing to the owner count. -/
theorem countP_isOwner_replicate (m p : Nat) :
    (List.replicate m (⟨p, false⟩ : CallerRecord)).countP
      (fun c => c.isOwner) = 0 := by
  induction m with
  | zero => rfl
  | succ k ih => simp [List.replicate_succ, List.countP_cons, ih]

/-- C2 (confirmed): when `n ≥ 1` callers each hit a 401 while no refresh is
yet in flight, exactly one `performTokenRefresh` network call is started;
every caller awaits that same promise and resumes with its one result; one
caller owns the promise; and settling the promise — with success or with
failure — leaves the shared pending marker cleared. -/
theorem claim_C2 (st : AgentState) (n : Nat)
    (hidle : st.refreshPromise = none) (hn : 1 ≤ n) :
    (enterAll st n).1.networkCalls = st.networkCalls + 1 ∧
    (∀ c ∈ (enterAll st n).2, c.promiseAwaited = st.nextId) ∧
    (enterAll st n).2.countP (fun c => c.isOwner) = 1 ∧
    (∀ results : Nat → RefreshOutcome, ∀ c ∈ (enterAll st n).2,
      resumeWith results c = results st.nextId) ∧
    (∀ o : RefreshOutcome,
      (settle (enterAll st n).1 st.nextId o).refreshPromise = none) := by
  obtain ⟨m, rfl⟩ : ∃ m, n = m + 1 := ⟨n - 1, by omega⟩
  have hall : enterAll st (m + 1) =
      (⟨some st.nextId, st.networkCalls + 1, st.nextId + 1⟩,
        ⟨st.nextId, true⟩ :: List.replicate m ⟨st.nextId, false⟩) := by
    simp [enterAll, enterRefresh_idle st hidle,
      enterAll_inflight
        (⟨some st.nextId, st.networkCalls + 1, st.nextId + 1⟩ : AgentState)
        st.nextId rfl]
  refine ⟨by rw [hall], ?_, ?_, ?_, ?_⟩
  · intro c hc
    rw [hall] at hc
    rcases List.mem_cons.mp hc with rfl | hmem
    · rfl
    · rw [List.eq_of_mem_replicate hmem]
  · rw [hall]
    simp [List.countP_cons, countP_isOwner_replicate]
  · intro results c hc
    rw [hall] at hc
    rcases List.mem_cons.mp hc with rfl | hmem
    · rfl
    · rw [List.eq_of_mem_replicate hmem]
      rfl
  · intro o
    rw [hall]
    simp [settle]

/-- C2, witness: five concurrent 401 victims on an idle agent trigger one
network call, all await promise 0, there is one owner, all resume with that
promise's result, and settlement with either outcome clears the marker. -/
theorem claim_C2_witness :
    (enterAll ⟨none, 0, 0⟩ 5).1.networkCalls = 0 + 1 ∧
    (∀ c ∈ (enterAll ⟨none, 0, 0⟩ 5).2, c.promiseAwaited = 0) ∧
    (enterAll ⟨none, 0, 0⟩ 5).2.countP (fun c => c.isOwner) = 1 ∧
    (∀ results : Nat → RefreshOutcome, ∀ c ∈ (enterAll ⟨none, 0, 0⟩ 5).2,
      resumeWith results c = results 0) ∧
    (∀ o : RefreshOutcome,
      (settle (enterAll ⟨none, 0, 0⟩ 5).1 0 o).refreshPromise = none) :=
  claim_C2 ⟨none, 0, 0⟩ 5 rfl (by omega)

/-! Claim C1: refresh-token rotation. -/

/-- C1, counterexample: JWT signing is deterministic, so a refresh arriving
at the same clock second as the token's issuance re-issues the very same
refresh token value; rotation removes the row and re-inserts it, and
`isValid(T)` is still true immediately after the successful refresh —
contradicting the claim that rotation always consumes T. -/
theorem claim_C1_counterexample :
    (refreshHandler (some (generateRefreshToken "u" 0)) 0
        [⟨generateRefreshToken "u" 0, "u", 604800⟩]).1 =
      .refreshSuccess (generateAccessToken "u" 0)
        (generateRefreshToken "u" 0) ∧
    (isRefreshTokenValid (generateRefreshToken "u" 0) 0
        (refreshHandler (some (generateRefreshToken "u" 0)) 0
          [⟨generateRefreshToken "u" 0, "u", 604800⟩]).2).1 = true :=
  ⟨rfl, rfl⟩

/-- C1 (amended): for a refresh token value T with a live row whose codec
verification passes, and whose refresh call issues a replacement token that
differs from T (true whenever the call happens at a different second than
T's issuance) and is not already stored, `refresh(T)` succeeds with a new
pair, `isValid(T)` is false immediately afterwards, and a second
`refresh(T)` fails with InvalidRefresh. -/
theorem claim_C1 (t : TokenValue) (now : Nat) (s : Store)
    (r : StoredToken) (d : Payload)
    (hfind : findUniqueToken s t = some r)
    (hlive : ¬ r.expiresAt < now)
    (hver : verifyRefreshToken t now = .ok d)
    (hne : generateRefreshToken d.userId now ≠ t)
    (hfresh : findUniqueToken s (generateRefreshToken d.userId now) =
      none) :
    (refreshHandler (some t) now s).1 =
      .refreshSuccess (generateAccessToken d.userId now)
        (generateRefreshToken d.userId now) ∧
    (isRefreshTokenValid t now (refreshHandler (some t) now s).2).1 =
      false ∧
    (refreshHandler (some t) now (refreshHandler (some t) now s).2).1 =
      .invalidRefreshToken := by
  have hempty : t.isEmptyString = false :=
    (verifyRefreshToken_ok_inv t now d hver).2.2.2
  have hvalid := isRefreshTokenValid_of_live t now s r hfind hlive
  have hrem := removeRefreshToken_of_some t s r hfind
  have hfresh2 : findUniqueToken
      (s.filter (fun x => !decide (x.token = t)))
      (generateRefreshToken d.userId now) = none :=
    findUniqueToken_none_filter s _ _ hfresh
  have hstore := storeRefreshToken_of_none d.userId
    (generateRefreshToken d.userId now) now _ hfresh2
  have hrun : refreshHandler (some t) now s =
      (.refreshSuccess (generateAccessToken d.userId now)
          (generateRefreshToken d.userId now),
        s.filter (fun x => !decide (x.token = t)) ++
          [⟨generateRefreshToken d.userId now, d.userId,
            now + REFRESH_TTL⟩]) := by
    simp [refreshHandler, hempty, hver, hvalid, hrem, hstore]
  have hsingle : findUniqueToken
      [(⟨generateRefreshToken d.userId now, d.userId,
          now + REFRESH_TTL⟩ : StoredToken)] t = none := by
    unfold findUniqueToken
    simp [hne]
  have hnone2 : findUniqueToken
      (s.filter (fun x => !decide (x.token = t)) ++
        [(⟨generateRefreshToken d.userId now, d.userId,
            now + REFRESH_TTL⟩ : StoredToken)]) t = none := by
    rw [findUniqueToken_append, findUniqueToken_filter_self, hsingle]
    rfl
  refine ⟨by rw [hrun], ?_, ?_⟩
  · rw [hrun]
    show (isRefreshTokenValid t now
        (s.filter (fun x => !decide (x.token = t)) ++
          [⟨generateRefreshToken d.userId now, d.userId,
            now + REFRESH_TTL⟩])).1 = false
    rw [isRefreshTokenValid_of_none t now _ hnone2]
  · rw [hrun]
    show (refreshHandler (some t) now
        (s.filter (fun x => !decide (x.token = t)) ++
          [⟨generateRefreshToken d.userId now, d.userId,
            now + REFRESH_TTL⟩])).1 = ApiResult.invalidRefreshToken
    simp [refreshHandler, hempty, hver,
      isRefreshTokenValid_of_none t now _ hnone2]

/-- C1, witness: a token issued at second 0 and refreshed at second 10 is
rotated out — the refresh succeeds, the old value immediately fails
`isValid`, and a replayed refresh of it fails with InvalidRefresh. -/
theorem claim_C1_witness :
    (refreshHandler (some (generateRefreshToken "u" 0)) 10
        [⟨generateRefreshToken "u" 0, "u", 604800⟩]).1 =
      .refreshSuccess (generateAccessToken "u" 10)
        (generateRefreshToken "u" 10) ∧
    (isRefreshTokenValid (generateRefreshToken "u" 0) 10
        (refreshHandler (some (generateRefreshToken "u" 0)) 10
          [⟨generateRefreshToken "u" 0, "u", 604800⟩]).2).1 = false ∧
    (refreshHandler (some (generateRefreshToken "u" 0)) 10
        (refreshHandler (some (generateRefreshToken "u" 0)) 10
          [⟨generateRefreshToken "u" 0, "u", 604800⟩]).2).1 =
      .invalidRefreshToken :=
  claim_C1 (generateRefreshToken "u" 0) 10
    [⟨generateRefreshToken "u" 0, "u", 604800⟩]
    ⟨generateRefreshToken "u" 0, "u", 604800⟩
    ⟨"u", .refresh, 0, 604800⟩ rfl (by decide) rfl (by decide) rfl

end TaskAuth
